import Mathlib

/-!
Shallow embedding of the configuration-resolution and instruction-construction
subsystem of the m365-documenter-agent repository, together with the HTTP
run-agent handler and the agent-client wrapper, and theorems settling the
frozen claims about them.

Source files embedded:
* `src/shared/models/configuration.py` (ModelTypes, ModelConfiguration,
  LocalConfiguration.initialize, OnlineConfiguration.initialize,
  ConfigurationSingleton.get_instance, ConfigurationFactory)
* `src/shared/models/agent_instruction.py` (AgentInstruction,
  AgentFewShotInstruction)
* `src/shared/helpers/agents/agent_client.py` (AgentClient)
* `src/services/api/app.py` (the POST /run-agent handler)
-/

mutual

/-- A JSON value as produced by Python's `json.load`: only the constructors the
configuration files use (strings and objects, plus `null`).  Object field lists
are assumed key-unique, as `json.load` returns a `dict`. -/
inductive Json where
  | str (s : String)
  | obj (fields : JsonFields)
  | null

/-- The field list of a JSON object: a sequence of key/value pairs. -/
inductive JsonFields where
  | nil
  | cons (key : String) (val : Json) (rest : JsonFields)

end

deriving instance DecidableEq for Json, JsonFields

/-- Python `dict` key lookup over the fields of a JSON object (first match;
`json.load` dicts are key-unique). -/
def JsonFields.lookup (k : String) : JsonFields → Option Json
  | .nil => none
  | .cons key v rest => if key = k then some v else rest.lookup k

/-- The Python exceptions the embedded code can raise, with the message text
each raise site builds.  `keyError k` models `KeyError(k)` (whose `str` is the
repr `'k'`); `runtimeError` models `RuntimeError(msg)`. -/
inductive PyErr where
  | fileNotFoundError (msg : String)
  | runtimeError (msg : String)
  | keyError (key : String)
  | valueError (msg : String)
  | typeError (msg : String)
  | attributeError (msg : String)
  | notImplementedError (msg : String)
deriving DecidableEq

/-- Python subscript `j[k]`: succeeds on a dict that has the key, raises
`KeyError(k)` when the dict lacks it, raises `TypeError` when `j` is not a
dict (mirrors `config_data["model_deployments"]` and the lookups inside
`ModelConfiguration.from_dict`). -/
def Json.subscript (j : Json) (k : String) : Except PyErr Json :=
  match j with
  | .obj fields =>
    match fields.lookup k with
    | some v => .ok v
    | none => .error (.keyError k)
  | _ => .error (.typeError "object is not subscriptable")

/-- Convenience constructor: the JSON object for one model deployment entry,
as the configuration file format writes it. -/
def modelEntry (name ty dep ep : String) : Json :=
  .obj (.cons "name" (.str name) (.cons "type" (.str ty)
    (.cons "deployment_name" (.str dep) (.cons "endpoint" (.str ep) .nil))))

/-- Python `str.upper()` restricted to ASCII (the enum names and config type
strings are ASCII): uppercase every character. -/
def pyUpper (s : String) : String := ⟨s.data.map Char.toUpper⟩

/-- Python `.upper()` on a value: only a `str` has the method; any other value
raises `AttributeError` (mirrors `model_dict["type"].upper()`). -/
def Json.upperOfStr (j : Json) : Except PyErr String :=
  match j with
  | .str s => .ok (pyUpper s)
  | _ => .error (.attributeError "upper")

/-- `ModelTypes` enum from `configuration.py`: `CHAT = "chat"`,
`EMBEDDING = "embedding"`. -/
inductive ModelTypes where
  | chat
  | embedding
deriving DecidableEq

/-- The `.value` of a `ModelTypes` member, as used by
`ModelConfiguration.to_dict`. -/
def ModelTypes.value : ModelTypes → String
  | .chat => "chat"
  | .embedding => "embedding"

/-- Python `ModelTypes[name]`: lookup of an enum member by its NAME, raising
`KeyError(name)` when no member has that name. -/
def ModelTypes.byName (name : String) : Except PyErr ModelTypes :=
  if name = "CHAT" then .ok .chat
  else if name = "EMBEDDING" then .ok .embedding
  else .error (.keyError name)

/-- The `ModelConfiguration` dataclass.  Python is dynamically typed, so the
`name`, `deployment_name` and `endpoint` fields carry whatever JSON value the
config file held; only `type` is forced through the `ModelTypes` enum by
`from_dict`. -/
structure ModelConfiguration where
  name : Json
  type : ModelTypes
  deployment_name : Json
  endpoint : Json
deriving DecidableEq

/-- `ModelConfiguration.from_dict`: field accesses in the order Python
evaluates the keyword arguments (`name`, `type`, `deployment_name`,
`endpoint`), with `ModelTypes[model_dict["type"].upper()]` for the type. -/
def ModelConfiguration.from_dict (model_dict : Json) : Except PyErr ModelConfiguration :=
  match model_dict.subscript "name" with
  | .error e => .error e
  | .ok name =>
    match model_dict.subscript "type" with
    | .error e => .error e
    | .ok tyJson =>
      match tyJson.upperOfStr with
      | .error e => .error e
      | .ok tyStr =>
        match ModelTypes.byName tyStr with
        | .error e => .error e
        | .ok ty =>
          match model_dict.subscript "deployment_name" with
          | .error e => .error e
          | .ok dep =>
            match model_dict.subscript "endpoint" with
            | .error e => .error e
            | .ok ep => .ok ⟨name, ty, dep, ep⟩

/-- `ModelConfiguration.to_dict`: emits the four fields with the enum's
`.value` string for `type`. -/
def ModelConfiguration.to_dict (m : ModelConfiguration) : Json :=
  .obj (.cons "name" m.name (.cons "type" (.str m.type.value)
    (.cons "deployment_name" m.deployment_name (.cons "endpoint" m.endpoint .nil))))

deriving instance DecidableEq for Except

/-- Python `sep.join(parts)`. -/
def pyJoin (sep : String) : List String → String
  | [] => ""
  | [x] => x
  | x :: y :: rest => x ++ sep ++ pyJoin sep (y :: rest)

/-- One rendered few-shot block: the f-string
`"Input: {input}\nOutput: {output}"` from `AgentFewShotInstruction.__str__`. -/
def exampleBlock (p : String × String) : String :=
  "Input: " ++ p.1 ++ "\nOutput: " ++ p.2

/-- The `AgentInstruction` class hierarchy from `agent_instruction.py`: the
base class holds only the system instruction; the few-shot subclass adds the
ordered example list. -/
inductive AgentInstruction where
  | base (system_instruction : String)
  | fewShot (system_instruction : String) (examples : List (String × String))
deriving DecidableEq

/-- `__str__` of the instruction classes.  The base class returns the system
instruction; `AgentFewShotInstruction.__str__` computes
`out = system_instruction; out += "\n\nExamples:\n"; out += "\n\n".join(...)`. -/
def AgentInstruction.toText : AgentInstruction → String
  | .base s => s
  | .fewShot s exs => s ++ "\n\nExamples:\n" ++ pyJoin "\n\n" (exs.map exampleBlock)

/-- The three protected model slots that `Configuration.__init__` sets to
`None` and `LocalConfiguration.initialize` populates. -/
structure ConfigFields where
  _standard_chat_model : Option ModelConfiguration
  _simple_chat_model : Option ModelConfiguration
  _text_embedding_model : Option ModelConfiguration
deriving DecidableEq

/-- `Configuration.__init__`: all three slots start as `None`. -/
def ConfigFields.empty : ConfigFields := ⟨none, none, none⟩

/-- What `open` + `json.load` yields for one file: either a JSON parse failure
(raising `json.JSONDecodeError` with some detail text) or a parsed value. -/
inductive FileContent where
  | unparsable (detail : String)
  | parsed (j : Json)
deriving DecidableEq

/-- The `except (KeyError, ValueError) as e: raise RuntimeError(f"Invalid
configuration format: {e}")` wrapper in `LocalConfiguration.initialize`.
`str` of a `KeyError` is the quoted key; other exception kinds are not caught
and propagate unchanged. -/
def wrapFmt : PyErr → PyErr
  | .keyError k => .runtimeError ("Invalid configuration format: '" ++ k ++ "'")
  | .valueError m => .runtimeError ("Invalid configuration format: " ++ m)
  | e => e

/-- `ModelConfiguration.from_dict(deployments[k])`. -/
def deploymentsEntry (deployments : Json) (k : String) :
    Except PyErr ModelConfiguration :=
  match deployments.subscript k with
  | .error e => .error e
  | .ok d => ModelConfiguration.from_dict d

/-- `LocalConfiguration.initialize`, embedded over an explicit file system
(`fs` maps paths to contents) and the mutable field state `st`.  Returns the
state after the call together with the exception raised, if any.  The three
setter calls happen in sequence inside one `try`, so fields assigned before a
failing lookup keep their new values. -/
def initializeLocal (st : ConfigFields) (fs : List (String × FileContent))
    (path : String) : ConfigFields × Option PyErr :=
  match fs.lookup path with
  | none => (st, some (.fileNotFoundError ("Configuration file not found: " ++ path)))
  | some (.unparsable detail) =>
      (st, some (.runtimeError ("Failed to load configuration: " ++ detail)))
  | some (.parsed config_data) =>
    match config_data.subscript "model_deployments" with
    | .error e => (st, some (wrapFmt e))
    | .ok deployments =>
      match deploymentsEntry deployments "standard_chat_model" with
      | .error e => (st, some (wrapFmt e))
      | .ok c1 =>
        let st1 := { st with _standard_chat_model := some c1 }
        match deploymentsEntry deployments "simple_chat_model" with
        | .error e => (st1, some (wrapFmt e))
        | .ok c2 =>
          let st2 := { st1 with _simple_chat_model := some c2 }
          match deploymentsEntry deployments "text_embedding_model" with
          | .error e => (st2, some (wrapFmt e))
          | .ok c3 => ({ st2 with _text_embedding_model := some c3 }, none)

/-- One singleton slot of `ConfigurationSingleton._instances`, for a fixed
configuration class: the cached instance (identified by the index of the
construction attempt that produced it, so distinct constructions are
distinguishable) and how many construct-and-initialize attempts have run. -/
structure RegSlot where
  slot : Option Nat
  attempts : Nat
deriving DecidableEq

/-- `ConfigurationSingleton.get_instance` for one configuration class, as seen
by a single caller (the concurrent interleaving semantics is `SingletonSys`
below): if the slot is populated it is returned; otherwise the class is
constructed and `initialize()`d — behaviour of the k-th attempt given by
`b k`, `none` meaning success — and only a successful instance is stored.
An exception from `initialize` propagates and nothing is cached. -/
def get_instance (b : Nat → Option PyErr) (r : RegSlot) : RegSlot × Except PyErr Nat :=
  match r.slot with
  | some c => (r, .ok c)
  | none =>
    match b r.attempts with
    | none => ({ slot := some r.attempts, attempts := r.attempts + 1 }, .ok r.attempts)
    | some e => ({ r with attempts := r.attempts + 1 }, .error e)

/-- `OnlineConfiguration.__init__` fields. -/
structure OnlineConfiguration where
  endpoint : String
  api_key : String
deriving DecidableEq

/-- `OnlineConfiguration.initialize`: the placeholder implementation raises
`NotImplementedError` unconditionally. -/
def initializeOnline (_c : OnlineConfiguration) : Option PyErr :=
  some (.notImplementedError "Online configuration not yet implemented")

/-- Python truthiness of an `os.getenv` result: `None` and the empty string
are falsy. -/
def truthy : Option String → Bool
  | some s => !(s == "")
  | none => false

/-- The two singleton slots `create_configuration` can touch: one keyed by
`OnlineConfiguration`, one by `LocalConfiguration`. -/
structure FactoryState where
  onlineSlot : RegSlot
  localSlot : RegSlot
deriving DecidableEq

/-- Which configuration class produced the instance a factory call returns. -/
inductive SourceTag where
  | onlineSrc (instId : Nat)
  | localSrc (instId : Nat)
deriving DecidableEq

/-- `ConfigurationFactory.create_configuration`, embedded over an explicit
environment (`env` maps variable names to values; absence models an unset
variable) and the local class's initialize behaviour `bLocal`.  Returns the
new registry state, the call's result, and whether the online path was
attempted.  The online attempt runs `OnlineConfiguration.initialize` through
the singleton (always `NotImplementedError`); `except Exception` around it
makes any online failure fall back to `create_local_configuration()`. -/
def create_configuration (env : List (String × String))
    (bLocal : Nat → Option PyErr) (st : FactoryState) :
    FactoryState × Except PyErr SourceTag × Bool :=
  let online_endpoint := env.lookup "CONFIG_ENDPOINT"
  let online_api_key := env.lookup "CONFIG_API_KEY"
  if truthy online_endpoint && truthy online_api_key then
    let bOnline : Nat → Option PyErr := fun _ =>
      initializeOnline ⟨online_endpoint.getD "", online_api_key.getD ""⟩
    match get_instance bOnline st.onlineSlot with
    | (o', .ok c) => ({ st with onlineSlot := o' }, .ok (.onlineSrc c), true)
    | (o', .error _) =>
      let (l', r) := get_instance bLocal st.localSlot
      ({ onlineSlot := o', localSlot := l' }, r.map .localSrc, true)
  else
    let (l', r) := get_instance bLocal st.localSlot
    ({ st with localSlot := l' }, r.map .localSrc, false)

/-- `ChatModelConfig` dataclass from `chat_model.py`. -/
structure ChatModelConfig where
  endpoint : String
  deployment_name : String
deriving DecidableEq

/-- One constructed `AzureOpenAIChatClient`: its arguments plus the index of
the construction that produced it (so separate constructions are
distinguishable). -/
structure ChatClientHandle where
  endpoint : String
  deployment_name : String
  ctorId : Nat
deriving DecidableEq

/-- One constructed `ChatAgent`: the arguments `AgentClient.create_agent`
passes. -/
structure ChatAgentHandle where
  name : String
  instruction : String
  chat_client : ChatClientHandle
  use_content_safety : Bool
deriving DecidableEq

/-- The `AgentClient` wrapper state.  `agent = none` models the `agent`
attribute never having been assigned (class-level annotation only), in which
case reading `self.agent` raises `AttributeError`. -/
structure AgentClient where
  instruction : AgentInstruction
  name : String
  use_content_safety : Bool
  chat_completion_model : ChatModelConfig
  agent_client : ChatClientHandle
  agent : Option ChatAgentHandle
deriving DecidableEq

/-- `AgentClient.__init__`: stores the arguments and eagerly constructs the
`AzureOpenAIChatClient` from the model's endpoint/deployment.  `ctr` counts
chat-client constructions so far; the new handle takes id `ctr`. -/
def AgentClient.mk_init (instruction : AgentInstruction) (name : String)
    (chat_completion_model : ChatModelConfig) (use_content_safety : Bool)
    (ctr : Nat) : AgentClient × Nat :=
  (⟨instruction, name, use_content_safety, chat_completion_model,
    ⟨chat_completion_model.endpoint, chat_completion_model.deployment_name, ctr⟩,
    none⟩, ctr + 1)

/-- `AgentClient.create_agent`: builds the `ChatAgent` from the stored name,
rendered instruction, existing chat-client handle and safety flag. -/
def AgentClient.create_agent (c : AgentClient) : AgentClient :=
  { c with
    agent := some ⟨c.name, c.instruction.toText, c.agent_client, c.use_content_safety⟩ }

/-- Outcome of one `run_agent` call: an exception, or completion via exactly
one `agent.run(user_input)` upstream call on the given agent handle. -/
inductive RunOutcome where
  | raised (e : PyErr)
  | completed (agentUsed : ChatAgentHandle) (user_input : String)
deriving DecidableEq

/-- `AgentClient.run_agent`: `if not self.agent` reads the `agent` attribute —
`AttributeError` when it was never assigned; when assigned it holds a
`ChatAgent` object, which is truthy, so `create_agent` is not re-invoked and
the stored agent serves the call.  No chat client is constructed here: the
construction counter is returned unchanged. -/
def AgentClient.run_agent (c : AgentClient) (ctr : Nat) (user_input : String) :
    RunOutcome × AgentClient × Nat :=
  match c.agent with
  | none => (.raised (.attributeError "agent"), c, ctr)
  | some a => (.completed a user_input, c, ctr)

/-- The top-level names defined or imported by the module
`shared.helpers.agents.agent_client` (its imports plus `class AgentClient`). -/
def agentClientModuleMembers : List String :=
  ["AzureOpenAIChatClient", "ChatAgent", "DefaultAzureCredential",
   "ChatModelConfig", "AgentInstruction", "AgentClient"]

/-- Python attribute lookup on a module: `AttributeError` when the module
defines no such name. -/
def moduleGetAttr (members : List String) (attr : String) : Except PyErr String :=
  if members.contains attr then .ok attr
  else .error (.attributeError ("module shared.helpers.agents.agent_client has no attribute " ++ attr))

/-- The module-level `chat_config` of `services/api/app.py`. -/
def chat_config : ChatModelConfig :=
  ⟨"https://aoai-browseragent6cpbv-dev.openai.azure.com/", "gpt-4o"⟩

/-- The exact error body the `/run-agent` handler returns for falsy input. -/
def runAgentErrorBody : Json :=
  .obj (.cons "error" (.str "user_input is required.") .nil)

/-- What one `/run-agent` request produces: the validation-error body, a
`{"response": ...}` body whose text came from one run of the given agent
handle on the given input, or an uncaught exception (a server fault). -/
inductive HandlerOutcome where
  | errorBody
  | responseBody (agentUsed : ChatAgentHandle) (user_input : String)
  | raised (e : PyErr)
deriving DecidableEq

/-- The `POST /run-agent` handler from `services/api/app.py`.  Empty input is
rejected first (`if not user_input`).  Otherwise the handler evaluates
`agent_client.AgentClientBase(...)`: attribute lookup on the module, then —
were the name present — construction, `create_agent()` and `run_agent()`.
`ctr` counts chat-client constructions. -/
def run_agent_route (user_input : String) (ctr : Nat) : HandlerOutcome × Nat :=
  if user_input = "" then (.errorBody, ctr)
  else
    match moduleGetAttr agentClientModuleMembers "AgentClientBase" with
    | .error e => (.raised e, ctr)
    | .ok _ =>
      let (agent0, ctr1) := AgentClient.mk_init
        (.base "You are a helpful assistant.") "TestAgent" chat_config true ctr
      let agent1 := agent0.create_agent
      match agent1.run_agent ctr1 user_input with
      | (.completed a inp, _, ctr2) => (.responseBody a inp, ctr2)
      | (.raised e, _, ctr2) => (.raised e, ctr2)

/-- Boolean prefix test on character lists (used to tell the two
`RuntimeError` message families apart). -/
def charsPrefix : List Char → List Char → Bool
  | [], _ => true
  | _ :: _, [] => false
  | a :: as, b :: bs => a == b && charsPrefix as bs

/-- `p` is a prefix of `s`, on the underlying characters. -/
def strHasPrefix (p s : String) : Bool := charsPrefix p.data s.data

/-- The three error causes `LocalConfiguration.initialize` distinguishes
(plus a bucket for anything else).  A caller separates them by exception type
(`FileNotFoundError` vs `RuntimeError`) and, between the two `RuntimeError`
families, by the fixed message prefix each raise site uses. -/
inductive ConfigErrorKind where
  | notFoundKind
  | parseKind
  | shapeKind
  | otherKind
deriving DecidableEq

/-- How a caller of `LocalConfiguration.initialize` classifies a raised
exception. -/
def classifyConfigError : PyErr → ConfigErrorKind
  | .fileNotFoundError _ => .notFoundKind
  | .runtimeError m =>
    if strHasPrefix "Failed to load configuration: " m then .parseKind
    else if strHasPrefix "Invalid configuration format: " m then .shapeKind
    else .otherKind
  | _ => .otherKind

/-- Program counter of one thread executing
`ConfigurationSingleton.get_instance`, one location per statement:
the unlocked membership check, lock acquisition, the locked re-check,
construct-initialize-store, lock release, and the final dictionary read
that returns the instance. -/
inductive SPC where
  | start
  | acquire
  | check2
  | doInit
  | release
  | readSlot
  | done
deriving DecidableEq

/-- Shared state plus per-thread state for `n` concurrent callers of
`ConfigurationSingleton.get_instance` on one configuration class: each
thread's program counter and returned value, the `_instances` slot for the
class, the `_lock` holder, and how many construct-and-initialize sequences
have executed.  A stored instance is identified by the value of `initCount`
when it was created, so distinct initializations would store distinct
instances. -/
structure SingletonSys (n : Nat) where
  pc : Fin n → SPC
  ret : Fin n → Option Nat
  slot : Option Nat
  lock : Option (Fin n)
  initCount : Nat

/-- The initial state: every caller is before the first check, nothing cached,
lock free, no initialization has run. -/
def SingletonSys.origin (n : Nat) : SingletonSys n :=
  ⟨fun _ => .start, fun _ => none, none, none, 0⟩

/-- Interleaving semantics of `get_instance`: one thread takes one atomic
step.  `check1Hit`/`check1Miss` are the unlocked membership check (a hit skips
the lock entirely); `acquireLock` blocks until the lock is free;
`check2Hit`/`check2Miss` are the double-check under the lock; `initStore` is
`instance = config_class(...); instance.initialize();
cls._instances[config_class] = instance` (all under the lock, so atomic with
respect to other threads); `releaseLock` leaves the `with` block; `readReturn`
is the final `return cls._instances[config_class]`. -/
inductive SStep {n : Nat} : SingletonSys n → SingletonSys n → Prop where
  | check1Hit (s : SingletonSys n) (t : Fin n)
      (hpc : s.pc t = .start) (hslot : s.slot.isSome) :
      SStep s { s with pc := Function.update s.pc t .readSlot }
  | check1Miss (s : SingletonSys n) (t : Fin n)
      (hpc : s.pc t = .start) (hslot : s.slot = none) :
      SStep s { s with pc := Function.update s.pc t .acquire }
  | acquireLock (s : SingletonSys n) (t : Fin n)
      (hpc : s.pc t = .acquire) (hlock : s.lock = none) :
      SStep s { s with pc := Function.update s.pc t .check2, lock := some t }
  | check2Hit (s : SingletonSys n) (t : Fin n)
      (hpc : s.pc t = .check2) (hslot : s.slot.isSome) :
      SStep s { s with pc := Function.update s.pc t .release }
  | check2Miss (s : SingletonSys n) (t : Fin n)
      (hpc : s.pc t = .check2) (hslot : s.slot = none) :
      SStep s { s with pc := Function.update s.pc t .doInit }
  | initStore (s : SingletonSys n) (t : Fin n)
      (hpc : s.pc t = .doInit) :
      SStep s { s with pc := Function.update s.pc t .release,
                       slot := some s.initCount, initCount := s.initCount + 1 }
  | releaseLock (s : SingletonSys n) (t : Fin n)
      (hpc : s.pc t = .release) (hlock : s.lock = some t) :
      SStep s { s with pc := Function.update s.pc t .readSlot, lock := none }
  | readReturn (s : SingletonSys n) (t : Fin n) (c : Nat)
      (hpc : s.pc t = .readSlot) (hslot : s.slot = some c) :
      SStep s { s with pc := Function.update s.pc t .done,
                       ret := Function.update s.ret t (some c) }

/-- A state the `n`-caller system can reach from the initial state. -/
def SReach {n : Nat} (s : SingletonSys n) : Prop :=
  Relation.ReflTransGen SStep (SingletonSys.origin n) s

/-- Trace states of one caller running `get_instance` to completion on an
empty registry: after the unlocked miss, after acquiring the lock, after the
locked re-check, after construct-initialize-store, after releasing, and after
the final read. -/
def cw1 : SingletonSys 1 := ⟨fun _ => .acquire, fun _ => none, none, none, 0⟩

/-- Trace state: the lock is held, about to re-check. -/
def cw2 : SingletonSys 1 := ⟨fun _ => .check2, fun _ => none, none, some 0, 0⟩

/-- Trace state: the locked re-check saw the empty slot. -/
def cw3 : SingletonSys 1 := ⟨fun _ => .doInit, fun _ => none, none, some 0, 0⟩

/-- Trace state: the instance was constructed, initialized and stored. -/
def cw4 : SingletonSys 1 := ⟨fun _ => .release, fun _ => none, some 0, some 0, 1⟩

/-- Trace state: the lock has been released. -/
def cw5 : SingletonSys 1 := ⟨fun _ => .readSlot, fun _ => none, some 0, none, 1⟩

/-- Trace state: the caller returned the stored instance. -/
def cw6 : SingletonSys 1 := ⟨fun _ => .done, fun _ => some 0, some 0, none, 1⟩

/-- The inductive invariant of the check-lock-check protocol: only the lock
holder is between `acquire` and `release`; a thread about to initialize saw an
empty slot under the lock; the slot is filled exactly by the initializations
run so far, holds instance `0`, and at most one initialization ever runs;
threads past the critical section see a filled slot; finished threads returned
instance `0`. -/
structure SInv {n : Nat} (s : SingletonSys n) : Prop where
  lockHeld : ∀ t, s.pc t = .check2 ∨ s.pc t = .doInit ∨ s.pc t = .release →
    s.lock = some t
  slotEmptyAtInit : ∀ t, s.pc t = .doInit → s.slot = none
  slotIffCount : s.slot = none ↔ s.initCount = 0
  slotVal : ∀ c, s.slot = some c → c = 0
  countLe : s.initCount ≤ 1
  slotSomeLate : ∀ t, s.pc t = .release ∨ s.pc t = .readSlot ∨ s.pc t = .done →
    s.slot.isSome
  retVal : ∀ t, s.pc t = .done → s.ret t = some 0

theorem pyJoin_cons_cons (sep x y : String) (l : List String) :
    pyJoin sep (x :: y :: l) = x ++ sep ++ pyJoin sep (y :: l) := rfl

theorem intercalate_go_eq_pyJoin (sep : String) :
    ∀ (l : List String) (acc : String),
      String.intercalate.go acc sep l = pyJoin sep (acc :: l) := by
  intro l
  induction l with
  | nil => intro acc; rfl
  | cons a as ih =>
    intro acc
    rw [String.intercalate.go, ih (acc ++ sep ++ a)]
    cases as with
    | nil => rfl
    | cons b bs => simp [pyJoin_cons_cons, String.append_assoc]

/-- Python's `sep.join` agrees with `String.intercalate`. -/
theorem pyJoin_eq_intercalate (sep : String) (l : List String) :
    pyJoin sep l = String.intercalate sep l := by
  cases l with
  | nil => rfl
  | cons a as => rw [String.intercalate, intercalate_go_eq_pyJoin]

theorem charsPrefix_append_self (p rest : List Char) :
    charsPrefix p (p ++ rest) = true := by
  induction p with
  | nil => rfl
  | cons a as ih => simp [charsPrefix, ih]

/-- C3 counterexample: with an empty example list, `__str__` does not return
the bare system text — the `"\n\nExamples:\n"` header is still appended. -/
theorem c3_counterexample :
    AgentInstruction.toText (.fewShot "You are a helpful assistant." []) ≠
      "You are a helpful assistant." := by decide

/-- C3 (amended): rendering an `AgentFewShotInstruction` with an empty example
list returns the system text followed by exactly the literal header
`"\n\nExamples:\n"` — the header is appended even with zero examples. -/
theorem c3_empty_examples_render (s : String) :
    AgentInstruction.toText (.fewShot s []) = s ++ "\n\nExamples:\n" := by
  simp [AgentInstruction.toText, pyJoin]

/-- C4 counterexample: the rendered string is not the system text followed
directly by the blank-line-separated example blocks — the `"Examples:"`
header sits between them. -/
theorem c4_counterexample :
    AgentInstruction.toText (.fewShot "A" [("Q", "B")]) ≠
      "A" ++ "\n\n" ++ "Input: Q\nOutput: B" := by decide

/-- C4 (amended): rendering is a pure function of the fields and equals the
system text, then the literal `"\n\nExamples:\n"` header, then for each
example in insertion order the block `"Input: {input}\nOutput: {output}"`,
consecutive blocks separated by blank lines. -/
theorem c4_render_formula (s : String) (exs : List (String × String)) :
    AgentInstruction.toText (.fewShot s exs) =
      s ++ "\n\nExamples:\n" ++
        String.intercalate "\n\n"
          (exs.map fun p => "Input: " ++ p.1 ++ "\nOutput: " ++ p.2) := by
  show s ++ "\n\nExamples:\n" ++ pyJoin "\n\n" (exs.map exampleBlock) = _
  rw [pyJoin_eq_intercalate]
  rfl

/-- C9: the `/run-agent` handler returns the exact validation-error body for
empty input without constructing any chat client, but for non-empty input the
code raises `AttributeError` — the module defines `AgentClient`, not the
`AgentClientBase` the handler references — instead of producing a
`{"response": ...}` body. -/
theorem c9_handler_eval :
    run_agent_route "" 0 = (.errorBody, 0) ∧
    run_agent_route "hello" 0 =
      (.raised (.attributeError
        "module shared.helpers.agents.agent_client has no attribute AgentClientBase"), 0) := by
  exact ⟨rfl, by decide⟩

/-- C10: `from_dict` is a left inverse of `to_dict`: `to_dict` emits the
lower-case `.value` string of the kind, and `from_dict` maps that type string
(case-insensitively, through `.upper()` and name lookup) back to the same
enum member, reconstructing the original `ModelConfiguration`. -/
theorem c10_roundtrip (m : ModelConfiguration) :
    ModelConfiguration.from_dict m.to_dict = .ok m ∧
    m.to_dict.subscript "type" = .ok (.str m.type.value) ∧
    (m.type.value = "chat" ∨ m.type.value = "embedding") ∧
    ModelTypes.byName (pyUpper m.type.value) = .ok m.type := by
  obtain ⟨name, ty, dep, ep⟩ := m
  cases ty
  · exact ⟨rfl, rfl, Or.inl rfl, rfl⟩
  · exact ⟨rfl, rfl, Or.inr rfl, rfl⟩

/-- C7 counterexample: `AgentClient.__init__` alone — before any run
invocation — already constructs the chat client: the construction counter
moves from 0 to 1 and the wrapper holds the handle produced by that
construction, so the handle is constructed at wrapper creation, not lazily on
the first run. -/
theorem c7_counterexample :
    (AgentClient.mk_init (.base "i") "agent" ⟨"https://e", "gpt"⟩ true 0).2 = 1 ∧
    (AgentClient.mk_init (.base "i") "agent" ⟨"https://e", "gpt"⟩ true 0).1.agent_client.ctorId
      = 0 := by decide

/-- C7 (amended): the chat-client handle is constructed eagerly in
`__init__`, exactly once per wrapper instance, and no `run_agent` call ever
constructs another — every run leaves the wrapper and the construction counter
unchanged and serves the call with the stored agent; a run on an instance
whose `agent` attribute was never assigned raises `AttributeError` instead of
lazily creating it, and `create_agent` builds the agent from the handle made
at creation time. -/
theorem c7_eager_client_and_reuse
    (instr : AgentInstruction) (name : String) (m : ChatModelConfig)
    (safety : Bool) (ctr : Nat) (c : AgentClient) (input : String) :
    (AgentClient.mk_init instr name m safety ctr).2 = ctr + 1 ∧
    (AgentClient.mk_init instr name m safety ctr).1.agent_client =
      ⟨m.endpoint, m.deployment_name, ctr⟩ ∧
    (AgentClient.mk_init instr name m safety ctr).1.agent = none ∧
    (c.run_agent ctr input).2.2 = ctr ∧
    (c.run_agent ctr input).2.1 = c ∧
    (c.agent = none → (c.run_agent ctr input).1 = .raised (.attributeError "agent")) ∧
    (∀ a, c.agent = some a → (c.run_agent ctr input).1 = .completed a input) ∧
    c.create_agent.agent =
      some ⟨c.name, c.instruction.toText, c.agent_client, c.use_content_safety⟩ := by
  refine ⟨rfl, rfl, rfl, ?_, ?_, ?_, ?_, rfl⟩
  · cases h : c.agent <;> simp [AgentClient.run_agent, h]
  · cases h : c.agent <;> simp [AgentClient.run_agent, h]
  · intro h; simp [AgentClient.run_agent, h]
  · intro a h; simp [AgentClient.run_agent, h]

theorem c7_witness :
    ((AgentClient.mk_init (.base "i") "n" ⟨"e", "d"⟩ true 0).1.run_agent 1 "q").1 =
      .raised (.attributeError "agent") ∧
    (AgentClient.mk_init (.base "i") "n" ⟨"e", "d"⟩ true 0).2 = 1 := by
  refine ⟨?_, ?_⟩
  · exact (c7_eager_client_and_reuse (.base "i") "n" ⟨"e", "d"⟩ true 1
      (AgentClient.mk_init (.base "i") "n" ⟨"e", "d"⟩ true 0).1 "q").2.2.2.2.2.1 rfl
  · exact (c7_eager_client_and_reuse (.base "i") "n" ⟨"e", "d"⟩ true 0
      (AgentClient.mk_init (.base "i") "n" ⟨"e", "d"⟩ true 0).1 "q").1

/-- C2: when the slot is empty and the construct-and-initialize attempt
raises, `get_instance` propagates the exception, stores nothing (the slot
stays empty), performs exactly one initialization attempt in the failing
call, and a subsequent call constructs and initializes a fresh instance —
which it stores and returns if that attempt succeeds. -/
theorem c2_failed_init_not_cached (b : Nat → Option PyErr) (r : RegSlot) (e : PyErr)
    (hslot : r.slot = none) (hfail : b r.attempts = some e) :
    get_instance b r = ({ r with attempts := r.attempts + 1 }, .error e) ∧
    (get_instance b r).1.slot = none ∧
    (b (r.attempts + 1) = none →
      get_instance b (get_instance b r).1 =
        (⟨some (r.attempts + 1), r.attempts + 2⟩, .ok (r.attempts + 1))) := by
  have h1 : get_instance b r = ({ r with attempts := r.attempts + 1 }, .error e) := by
    unfold get_instance
    rw [hslot, hfail]
  refine ⟨h1, ?_, ?_⟩
  · rw [h1]; exact hslot
  · intro hsucc
    rw [h1]
    unfold get_instance
    simp [hslot, hsucc]

theorem c2_witness :
    get_instance (fun k => if k = 0 then some (.runtimeError "boom") else none) ⟨none, 0⟩ =
      (⟨none, 1⟩, .error (.runtimeError "boom")) ∧
    get_instance (fun k => if k = 0 then some (.runtimeError "boom") else none) ⟨none, 1⟩ =
      (⟨some 1, 2⟩, .ok 1) := by
  obtain ⟨h1, _, h3⟩ := c2_failed_init_not_cached
    (fun k => if k = 0 then some (.runtimeError "boom") else none) ⟨none, 0⟩
    (.runtimeError "boom") rfl (by decide)
  have h4 := h3 (by decide)
  rw [h1] at h4
  exact ⟨h1, h4⟩

/-- C1 counterexample: a well-formed config whose `model_deployments` has the
standard and simple chat entries but no `text_embedding_model` key makes
`initialize` fail with the shape `RuntimeError`, yet the two fields assigned
before the missing key remain set — initialization is not all-or-nothing. -/
theorem c1_counterexample :
    initializeLocal ConfigFields.empty
        [("cfg", .parsed (.obj (.cons "model_deployments"
          (.obj (.cons "standard_chat_model" (modelEntry "s" "chat" "ds" "es")
            (.cons "simple_chat_model" (modelEntry "m" "chat" "dm" "em") .nil))) .nil)))]
        "cfg" =
      (⟨some ⟨.str "s", .chat, .str "ds", .str "es"⟩,
        some ⟨.str "m", .chat, .str "dm", .str "em"⟩, none⟩,
       some (.runtimeError "Invalid configuration format: 'text_embedding_model'")) ∧
    (initializeLocal ConfigFields.empty
        [("cfg", .parsed (.obj (.cons "model_deployments"
          (.obj (.cons "standard_chat_model" (modelEntry "s" "chat" "ds" "es")
            (.cons "simple_chat_model" (modelEntry "m" "chat" "dm" "em") .nil))) .nil)))]
        "cfg").1._standard_chat_model ≠ none := by decide

/-- C1 (amended): with the `text_embedding_model` key missing (and the first
two entries valid), `initialize` fails with the shape `RuntimeError`, but the
standard and simple chat fields are already set when it raises and stay set;
only the text-embedding field is left as it was — the failed call is not
all-or-nothing. -/
theorem c1_missing_embedding_partial_update (st : ConfigFields)
    (fs : List (String × FileContent)) (path : String) (j deployments : Json)
    (c1 c2 : ModelConfiguration)
    (hfile : fs.lookup path = some (.parsed j))
    (hdep : j.subscript "model_deployments" = .ok deployments)
    (h1 : deploymentsEntry deployments "standard_chat_model" = .ok c1)
    (h2 : deploymentsEntry deployments "simple_chat_model" = .ok c2)
    (h3 : deployments.subscript "text_embedding_model" =
      .error (.keyError "text_embedding_model")) :
    initializeLocal st fs path =
      ({ st with _standard_chat_model := some c1, _simple_chat_model := some c2 },
       some (.runtimeError "Invalid configuration format: 'text_embedding_model'")) := by
  have h3' : deploymentsEntry deployments "text_embedding_model" =
      .error (.keyError "text_embedding_model") := by
    unfold deploymentsEntry
    rw [h3]
  simp [initializeLocal, hfile, hdep, h1, h2, h3', wrapFmt]

theorem c1_witness :
    initializeLocal ⟨none, none, some ⟨.str "old", .embedding, .str "d", .str "e"⟩⟩
        [("cfg", .parsed (.obj (.cons "model_deployments"
          (.obj (.cons "standard_chat_model" (modelEntry "s" "chat" "ds" "es")
            (.cons "simple_chat_model" (modelEntry "m" "chat" "dm" "em") .nil))) .nil)))]
        "cfg" =
      (⟨some ⟨.str "s", .chat, .str "ds", .str "es"⟩,
        some ⟨.str "m", .chat, .str "dm", .str "em"⟩,
        some ⟨.str "old", .embedding, .str "d", .str "e"⟩⟩,
       some (.runtimeError "Invalid configuration format: 'text_embedding_model'")) := by
  exact c1_missing_embedding_partial_update
    ⟨none, none, some ⟨.str "old", .embedding, .str "d", .str "e"⟩⟩ _ "cfg" _ _
    ⟨.str "s", .chat, .str "ds", .str "es"⟩ ⟨.str "m", .chat, .str "dm", .str "em"⟩
    rfl rfl (by decide) (by decide) rfl

/-- C6: `OnlineConfiguration.initialize` raises `NotImplementedError` on every
call, and `create_configuration` attempts the online source exactly when both
`CONFIG_ENDPOINT` and `CONFIG_API_KEY` are set to non-empty values — and even
then (the online slot being unpopulated, as a permanently failing initializer
can never populate it) the result is always the local configuration: the
online failure is swallowed by the fallback, never propagated. -/
theorem c6_online_notimpl_and_fallback (c : OnlineConfiguration)
    (env : List (String × String)) (bLocal : Nat → Option PyErr) (st : FactoryState)
    (hOnlineEmpty : st.onlineSlot.slot = none) :
    initializeOnline c =
      some (.notImplementedError "Online configuration not yet implemented") ∧
    ((create_configuration env bLocal st).2.2 = true ↔
      (truthy (env.lookup "CONFIG_ENDPOINT") && truthy (env.lookup "CONFIG_API_KEY")) = true) ∧
    (create_configuration env bLocal st).2.1 =
      (get_instance bLocal st.localSlot).2.map SourceTag.localSrc := by
  refine ⟨rfl, ?_, ?_⟩ <;>
  · unfold create_configuration
    rcases hloc : get_instance bLocal st.localSlot with ⟨l, r⟩
    cases hcond : truthy (env.lookup "CONFIG_ENDPOINT") && truthy (env.lookup "CONFIG_API_KEY") <;>
      simp [hcond, hloc, get_instance, hOnlineEmpty, initializeOnline]

theorem c6_witness :
    (create_configuration [("CONFIG_ENDPOINT", "x"), ("CONFIG_API_KEY", "y")]
      (fun _ => none) ⟨⟨none, 0⟩, ⟨none, 0⟩⟩).2.1 = .ok (.localSrc 0) ∧
    (create_configuration [("CONFIG_ENDPOINT", "x"), ("CONFIG_API_KEY", "y")]
      (fun _ => none) ⟨⟨none, 0⟩, ⟨none, 0⟩⟩).2.2 = true := by
  obtain ⟨_, h2, h3⟩ := c6_online_notimpl_and_fallback ⟨"x", "y"⟩
    [("CONFIG_ENDPOINT", "x"), ("CONFIG_API_KEY", "y")]
    (fun _ => none) ⟨⟨none, 0⟩, ⟨none, 0⟩⟩ rfl
  exact ⟨by rw [h3]; decide, h2.mpr (by decide)⟩

theorem strHasPrefix_self_append (p rest : String) :
    strHasPrefix p (p ++ rest) = true := by
  simp [strHasPrefix, charsPrefix_append_self]

theorem classify_parse_msg (d : String) :
    classifyConfigError (.runtimeError ("Failed to load configuration: " ++ d)) =
      .parseKind := by
  simp [classifyConfigError, strHasPrefix_self_append]

theorem classify_shape_msg (d : String) :
    classifyConfigError (.runtimeError ("Invalid configuration format: " ++ d)) =
      .shapeKind := by
  have e1 : "Failed to load configuration: ".data =
      'F' :: "ailed to load configuration: ".data := by decide
  have e2 : "Invalid configuration format: ".data =
      'I' :: "nvalid configuration format: ".data := by decide
  have hne : strHasPrefix "Failed to load configuration: "
      ("Invalid configuration format: " ++ d) = false := by
    simp [strHasPrefix, e1, e2, charsPrefix]
  simp [classifyConfigError, hne, strHasPrefix_self_append]

theorem shapeMsg_factor (key : String) :
    "Invalid configuration format: '" ++ key ++ "'" =
      "Invalid configuration format: " ++ ("'" ++ key ++ "'") := by
  have h : "Invalid configuration format: '" = "Invalid configuration format: " ++ "'" := by
    decide
  rw [h]
  simp only [String.append_assoc]

theorem subscript_error_cases {j : Json} {k : String} {e : PyErr}
    (h : j.subscript k = .error e) :
    e = .keyError k ∨ e = .typeError "object is not subscriptable" := by
  cases j with
  | obj fields =>
    cases hfl : fields.lookup k with
    | none =>
      simp [Json.subscript, hfl] at h
      exact Or.inl h.symm
    | some v => simp [Json.subscript, hfl] at h
  | str s =>
    simp [Json.subscript] at h
    exact Or.inr h.symm
  | null =>
    simp [Json.subscript] at h
    exact Or.inr h.symm

theorem upperOfStr_error_cases {j : Json} {e : PyErr} (h : j.upperOfStr = .error e) :
    e = .attributeError "upper" := by
  cases j with
  | str s => simp [Json.upperOfStr] at h
  | obj fields =>
    simp [Json.upperOfStr] at h
    exact h.symm
  | null =>
    simp [Json.upperOfStr] at h
    exact h.symm

theorem byName_error_cases {s : String} {e : PyErr}
    (h : ModelTypes.byName s = .error e) : e = .keyError s := by
  unfold ModelTypes.byName at h
  by_cases h1 : s = "CHAT"
  · simp [h1] at h
  · by_cases h2 : s = "EMBEDDING"
    · simp [h1, h2] at h
    · simp [h1, h2] at h
      exact h.symm

theorem from_dict_error_cases {d : Json} {e : PyErr}
    (h : ModelConfiguration.from_dict d = .error e) :
    (∃ k, e = .keyError k) ∨ e = .typeError "object is not subscriptable" ∨
      e = .attributeError "upper" := by
  unfold ModelConfiguration.from_dict at h
  cases h1 : d.subscript "name" with
  | error e1 =>
    simp only [h1, Except.error.injEq] at h
    subst h
    rcases subscript_error_cases h1 with h' | h'
    · exact Or.inl ⟨"name", h'⟩
    · exact Or.inr (Or.inl h')
  | ok name =>
    cases h2 : d.subscript "type" with
    | error e2 =>
      simp only [h1, h2, Except.error.injEq] at h
      subst h
      rcases subscript_error_cases h2 with h' | h'
      · exact Or.inl ⟨"type", h'⟩
      · exact Or.inr (Or.inl h')
    | ok tyJson =>
      cases h3 : tyJson.upperOfStr with
      | error e3 =>
        simp only [h1, h2, h3, Except.error.injEq] at h
        subst h
        exact Or.inr (Or.inr (upperOfStr_error_cases h3))
      | ok tyStr =>
        cases h4 : ModelTypes.byName tyStr with
        | error e4 =>
          simp only [h1, h2, h3, h4, Except.error.injEq] at h
          subst h
          exact Or.inl ⟨tyStr, byName_error_cases h4⟩
        | ok ty =>
          cases h5 : d.subscript "deployment_name" with
          | error e5 =>
            simp only [h1, h2, h3, h4, h5, Except.error.injEq] at h
            subst h
            rcases subscript_error_cases h5 with h' | h'
            · exact Or.inl ⟨"deployment_name", h'⟩
            · exact Or.inr (Or.inl h')
          | ok dep =>
            cases h6 : d.subscript "endpoint" with
            | error e6 =>
              simp only [h1, h2, h3, h4, h5, h6, Except.error.injEq] at h
              subst h
              rcases subscript_error_cases h6 with h' | h'
              · exact Or.inl ⟨"endpoint", h'⟩
              · exact Or.inr (Or.inl h')
            | ok ep =>
              simp only [h1, h2, h3, h4, h5, h6] at h
              exact Except.noConfusion h

theorem deploymentsEntry_error_cases {dep : Json} {k : String} {e : PyErr}
    (h : deploymentsEntry dep k = .error e) :
    (∃ key, e = .keyError key) ∨ e = .typeError "object is not subscriptable" ∨
      e = .attributeError "upper" := by
  unfold deploymentsEntry at h
  cases hs : dep.subscript k with
  | error e0 =>
    simp only [hs, Except.error.injEq] at h
    subst h
    rcases subscript_error_cases hs with h' | h'
    · exact Or.inl ⟨k, h'⟩
    · exact Or.inr (Or.inl h')
  | ok d =>
    simp only [hs] at h
    exact from_dict_error_cases h

theorem wrapFmt_cases {e0 e : PyErr} (he : e = wrapFmt e0)
    (hc : (∃ key, e0 = .keyError key) ∨ e0 = .typeError "object is not subscriptable" ∨
      e0 = .attributeError "upper") :
    (∃ key, e = .runtimeError ("Invalid configuration format: '" ++ key ++ "'") ∧
      classifyConfigError e = .shapeKind) ∨
    e = .typeError "object is not subscriptable" ∨ e = .attributeError "upper" := by
  subst he
  rcases hc with ⟨k, hk⟩ | h' | h'
  · subst hk
    refine Or.inl ⟨k, rfl, ?_⟩
    show classifyConfigError
      (.runtimeError ("Invalid configuration format: '" ++ k ++ "'")) = .shapeKind
    rw [shapeMsg_factor]
    exact classify_shape_msg _
  · subst h'
    exact Or.inr (Or.inl rfl)
  · subst h'
    exact Or.inr (Or.inr rfl)

/-- C5: `LocalConfiguration.initialize` partitions failures by cause.  Absent
file: `FileNotFoundError`.  Unparsable contents: the "Failed to load
configuration" `RuntimeError`.  Parsed JSON with a required key absent or a
`type` string that maps to no enum member: the "Invalid configuration format"
`RuntimeError` naming the offending key — stated for every such cause: the
missing top-level `model_deployments` key, a `KeyError` from any of the three
deployment entries (with the fields set so far), each missing required key
inside an entry and the unmapped type string producing exactly that
`KeyError`, and any other parsed-phase failure being either such a shape
error or an uncaught `TypeError`/`AttributeError` from a non-dict or
non-string value (outside the claim's causes).  A caller can tell the three
causes apart: the classifier assigns them pairwise distinct kinds. -/
theorem c5_error_taxonomy :
    (∀ (st : ConfigFields) (fs : List (String × FileContent)) (path : String),
      List.lookup path fs = none →
      initializeLocal st fs path =
        (st, some (.fileNotFoundError ("Configuration file not found: " ++ path))) ∧
      classifyConfigError (.fileNotFoundError ("Configuration file not found: " ++ path)) =
        .notFoundKind) ∧
    (∀ (st : ConfigFields) (fs : List (String × FileContent)) (path d : String),
      List.lookup path fs = some (.unparsable d) →
      initializeLocal st fs path =
        (st, some (.runtimeError ("Failed to load configuration: " ++ d))) ∧
      classifyConfigError (.runtimeError ("Failed to load configuration: " ++ d)) =
        .parseKind) ∧
    (∀ (st : ConfigFields) (fs : List (String × FileContent)) (path : String)
      (fields : JsonFields),
      List.lookup path fs = some (.parsed (.obj fields)) →
      fields.lookup "model_deployments" = none →
      initializeLocal st fs path =
        (st, some (.runtimeError "Invalid configuration format: 'model_deployments'"))) ∧
    (∀ (st : ConfigFields) (fs : List (String × FileContent)) (path : String)
      (j deployments : Json) (k : String),
      List.lookup path fs = some (.parsed j) →
      j.subscript "model_deployments" = .ok deployments →
      deploymentsEntry deployments "standard_chat_model" = .error (.keyError k) →
      initializeLocal st fs path =
        (st, some (.runtimeError ("Invalid configuration format: '" ++ k ++ "'")))) ∧
    (∀ (st : ConfigFields) (fs : List (String × FileContent)) (path : String)
      (j deployments : Json) (k : String) (c1 : ModelConfiguration),
      List.lookup path fs = some (.parsed j) →
      j.subscript "model_deployments" = .ok deployments →
      deploymentsEntry deployments "standard_chat_model" = .ok c1 →
      deploymentsEntry deployments "simple_chat_model" = .error (.keyError k) →
      initializeLocal st fs path =
        ({ st with _standard_chat_model := some c1 },
         some (.runtimeError ("Invalid configuration format: '" ++ k ++ "'")))) ∧
    (∀ (st : ConfigFields) (fs : List (String × FileContent)) (path : String)
      (j deployments : Json) (k : String) (c1 c2 : ModelConfiguration),
      List.lookup path fs = some (.parsed j) →
      j.subscript "model_deployments" = .ok deployments →
      deploymentsEntry deployments "standard_chat_model" = .ok c1 →
      deploymentsEntry deployments "simple_chat_model" = .ok c2 →
      deploymentsEntry deployments "text_embedding_model" = .error (.keyError k) →
      initializeLocal st fs path =
        ({ st with _standard_chat_model := some c1, _simple_chat_model := some c2 },
         some (.runtimeError ("Invalid configuration format: '" ++ k ++ "'")))) ∧
    (∀ (dfields : JsonFields) (k : String), dfields.lookup k = none →
      deploymentsEntry (.obj dfields) k = .error (.keyError k)) ∧
    (∀ (deployments : Json) (k : String) (d : Json)
      (e : Except PyErr ModelConfiguration),
      deployments.subscript k = .ok d → ModelConfiguration.from_dict d = e →
      deploymentsEntry deployments k = e) ∧
    (∀ (dfields : JsonFields), dfields.lookup "name" = none →
      ModelConfiguration.from_dict (.obj dfields) = .error (.keyError "name")) ∧
    (∀ (dfields : JsonFields) (nv : Json), dfields.lookup "name" = some nv →
      dfields.lookup "type" = none →
      ModelConfiguration.from_dict (.obj dfields) = .error (.keyError "type")) ∧
    (∀ (dfields : JsonFields) (nv : Json) (s : String),
      dfields.lookup "name" = some nv →
      dfields.lookup "type" = some (.str s) →
      pyUpper s ≠ "CHAT" → pyUpper s ≠ "EMBEDDING" →
      ModelConfiguration.from_dict (.obj dfields) = .error (.keyError (pyUpper s))) ∧
    (∀ (dfields : JsonFields) (nv : Json) (s : String) (ty : ModelTypes),
      dfields.lookup "name" = some nv →
      dfields.lookup "type" = some (.str s) →
      ModelTypes.byName (pyUpper s) = .ok ty →
      dfields.lookup "deployment_name" = none →
      ModelConfiguration.from_dict (.obj dfields) =
        .error (.keyError "deployment_name")) ∧
    (∀ (dfields : JsonFields) (nv : Json) (s : String) (ty : ModelTypes) (dv : Json),
      dfields.lookup "name" = some nv →
      dfields.lookup "type" = some (.str s) →
      ModelTypes.byName (pyUpper s) = .ok ty →
      dfields.lookup "deployment_name" = some dv →
      dfields.lookup "endpoint" = none →
      ModelConfiguration.from_dict (.obj dfields) = .error (.keyError "endpoint")) ∧
    (∀ (st : ConfigFields) (fs : List (String × FileContent)) (path : String)
      (j : Json) (e : PyErr),
      List.lookup path fs = some (.parsed j) →
      (initializeLocal st fs path).2 = some e →
      ((∃ key, e = .runtimeError ("Invalid configuration format: '" ++ key ++ "'") ∧
          classifyConfigError e = .shapeKind) ∨
        e = .typeError "object is not subscriptable" ∨ e = .attributeError "upper")) ∧
    (∀ key : String, classifyConfigError
      (.runtimeError ("Invalid configuration format: '" ++ key ++ "'")) = .shapeKind) ∧
    (ConfigErrorKind.notFoundKind ≠ .parseKind ∧
      ConfigErrorKind.notFoundKind ≠ .shapeKind ∧
      ConfigErrorKind.parseKind ≠ .shapeKind) := by
  refine ⟨?_, ?_, ?_, ?_, ?_, ?_, ?_, ?_, ?_, ?_, ?_, ?_, ?_, ?_, ?_,
    by decide, by decide, by decide⟩
  · intro st fs path hmiss
    constructor
    · unfold initializeLocal
      rw [hmiss]
    · rfl
  · intro st fs path d hraw
    constructor
    · unfold initializeLocal
      rw [hraw]
    · exact classify_parse_msg d
  · intro st fs path fields hfile hmk
    simp [initializeLocal, hfile, Json.subscript, hmk, wrapFmt]
  · intro st fs path j deployments k hfile hdep h1
    simp [initializeLocal, hfile, hdep, h1, wrapFmt]
  · intro st fs path j deployments k c1 hfile hdep h1 h2
    simp [initializeLocal, hfile, hdep, h1, h2, wrapFmt]
  · intro st fs path j deployments k c1 c2 hfile hdep h1 h2 h3
    simp [initializeLocal, hfile, hdep, h1, h2, h3, wrapFmt]
  · intro dfields k hk
    simp [deploymentsEntry, Json.subscript, hk]
  · intro deployments k d e hs he
    unfold deploymentsEntry
    rw [hs]
    exact he
  · intro dfields hname
    simp [ModelConfiguration.from_dict, Json.subscript, hname]
  · intro dfields nv hname htype
    simp [ModelConfiguration.from_dict, Json.subscript, hname, htype]
  · intro dfields nv s hname htype hC hE
    simp [ModelConfiguration.from_dict, Json.subscript, hname, htype, Json.upperOfStr,
      ModelTypes.byName, hC, hE]
  · intro dfields nv s ty hname htype hby hdep
    simp [ModelConfiguration.from_dict, Json.subscript, hname, htype, Json.upperOfStr,
      hby, hdep]
  · intro dfields nv s ty dv hname htype hby hdep hep
    simp [ModelConfiguration.from_dict, Json.subscript, hname, htype, Json.upperOfStr,
      hby, hdep, hep]
  · intro st fs path j e hfile h
    unfold initializeLocal at h
    rw [hfile] at h
    cases hdep : j.subscript "model_deployments" with
    | error e0 =>
      simp only [hdep, Option.some.injEq] at h
      refine wrapFmt_cases h.symm ?_
      rcases subscript_error_cases hdep with h' | h'
      · exact Or.inl ⟨"model_deployments", h'⟩
      · exact Or.inr (Or.inl h')
    | ok deployments =>
      cases h1 : deploymentsEntry deployments "standard_chat_model" with
      | error e1 =>
        simp only [hdep, h1, Option.some.injEq] at h
        exact wrapFmt_cases h.symm (deploymentsEntry_error_cases h1)
      | ok c1 =>
        cases h2 : deploymentsEntry deployments "simple_chat_model" with
        | error e2 =>
          simp only [hdep, h1, h2, Option.some.injEq] at h
          exact wrapFmt_cases h.symm (deploymentsEntry_error_cases h2)
        | ok c2 =>
          cases h3 : deploymentsEntry deployments "text_embedding_model" with
          | error e3 =>
            simp only [hdep, h1, h2, h3, Option.some.injEq] at h
            exact wrapFmt_cases h.symm (deploymentsEntry_error_cases h3)
          | ok c3 =>
            simp only [hdep, h1, h2, h3] at h
            exact Option.noConfusion h
  · intro key
    rw [shapeMsg_factor]
    exact classify_shape_msg _

theorem c5_witness :
    initializeLocal ConfigFields.empty [] "c.json" =
      (ConfigFields.empty,
       some (.fileNotFoundError ("Configuration file not found: " ++ "c.json"))) ∧
    initializeLocal ConfigFields.empty [("c.json", .unparsable "oops")] "c.json" =
      (ConfigFields.empty,
       some (.runtimeError ("Failed to load configuration: " ++ "oops"))) ∧
    initializeLocal ConfigFields.empty [("c.json", .parsed (.obj .nil))] "c.json" =
      (ConfigFields.empty,
       some (.runtimeError "Invalid configuration format: 'model_deployments'")) ∧
    ModelConfiguration.from_dict (modelEntry "m" "gpt4o" "d" "e") =
      .error (.keyError (pyUpper "gpt4o")) ∧
    classifyConfigError
      (.runtimeError ("Invalid configuration format: '" ++ "GPT4O" ++ "'")) =
      .shapeKind := by
  obtain ⟨h1, h2, h3, h4, h5, h6, h7, h8, h9, h10, h11, h12, h13, h14, h15, _⟩ :=
    c5_error_taxonomy
  refine ⟨(h1 ConfigFields.empty [] "c.json" rfl).1,
    (h2 ConfigFields.empty [("c.json", .unparsable "oops")] "c.json" "oops" rfl).1,
    h3 ConfigFields.empty [("c.json", .parsed (.obj .nil))] "c.json" .nil rfl rfl,
    ?_, h15 "GPT4O"⟩
  exact h11
    (.cons "name" (.str "m") (.cons "type" (.str "gpt4o")
      (.cons "deployment_name" (.str "d") (.cons "endpoint" (.str "e") .nil))))
    (.str "m") "gpt4o" (by decide) (by decide) (by decide) (by decide)
theorem updFin1 {α : Type} (f : Fin 1 → α) (t : Fin 1) (v : α) :
    Function.update f t v = fun _ => v := by
  funext x
  rw [Subsingleton.elim x t, Function.update_same]

theorem SInv_origin (n : Nat) : SInv (SingletonSys.origin n) := by
  constructor
  · intro t ht
    rcases ht with h | h | h <;> simp [SingletonSys.origin] at h
  · intro t ht
    simp [SingletonSys.origin] at ht
  · simp [SingletonSys.origin]
  · intro c hc
    simp [SingletonSys.origin] at hc
  · simp [SingletonSys.origin]
  · intro t ht
    rcases ht with h | h | h <;> simp [SingletonSys.origin] at h
  · intro t ht
    simp [SingletonSys.origin] at ht

theorem SInv_step {n : Nat} {s s' : SingletonSys n} (inv : SInv s) (h : SStep s s') :
    SInv s' := by
  obtain ⟨A, B, C, D, E, F, G⟩ := inv
  cases h with
  | check1Hit t hpc hslot =>
    refine ⟨?_, ?_, C, D, E, ?_, ?_⟩
    · intro u hu
      rcases eq_or_ne u t with rfl | hne
      · simp only [Function.update_same] at hu
        rcases hu with h | h | h <;> simp at h
      · simp only [Function.update_noteq hne] at hu
        exact A u hu
    · intro u hu
      rcases eq_or_ne u t with rfl | hne
      · simp only [Function.update_same] at hu
        simp at hu
      · simp only [Function.update_noteq hne] at hu
        exact B u hu
    · intro u hu
      rcases eq_or_ne u t with rfl | hne
      · exact hslot
      · simp only [Function.update_noteq hne] at hu
        exact F u hu
    · intro u hu
      rcases eq_or_ne u t with rfl | hne
      · simp only [Function.update_same] at hu
        simp at hu
      · simp only [Function.update_noteq hne] at hu
        exact G u hu
  | check1Miss t hpc hslot =>
    refine ⟨?_, ?_, C, D, E, ?_, ?_⟩
    · intro u hu
      rcases eq_or_ne u t with rfl | hne
      · simp only [Function.update_same] at hu
        rcases hu with h | h | h <;> simp at h
      · simp only [Function.update_noteq hne] at hu
        exact A u hu
    · intro u hu
      rcases eq_or_ne u t with rfl | hne
      · simp only [Function.update_same] at hu
        simp at hu
      · simp only [Function.update_noteq hne] at hu
        exact B u hu
    · intro u hu
      rcases eq_or_ne u t with rfl | hne
      · simp only [Function.update_same] at hu
        rcases hu with h | h | h <;> simp at h
      · simp only [Function.update_noteq hne] at hu
        exact F u hu
    · intro u hu
      rcases eq_or_ne u t with rfl | hne
      · simp only [Function.update_same] at hu
        simp at hu
      · simp only [Function.update_noteq hne] at hu
        exact G u hu
  | acquireLock t hpc hlock =>
    refine ⟨?_, ?_, C, D, E, ?_, ?_⟩
    · intro u hu
      rcases eq_or_ne u t with rfl | hne
      · rfl
      · simp only [Function.update_noteq hne] at hu
        have h1 := A u hu
        rw [hlock] at h1
        exact Option.noConfusion h1
    · intro u hu
      rcases eq_or_ne u t with rfl | hne
      · simp only [Function.update_same] at hu
        simp at hu
      · simp only [Function.update_noteq hne] at hu
        exact B u hu
    · intro u hu
      rcases eq_or_ne u t with rfl | hne
      · simp only [Function.update_same] at hu
        rcases hu with h | h | h <;> simp at h
      · simp only [Function.update_noteq hne] at hu
        exact F u hu
    · intro u hu
      rcases eq_or_ne u t with rfl | hne
      · simp only [Function.update_same] at hu
        simp at hu
      · simp only [Function.update_noteq hne] at hu
        exact G u hu
  | check2Hit t hpc hslot =>
    refine ⟨?_, ?_, C, D, E, ?_, ?_⟩
    · intro u hu
      rcases eq_or_ne u t with rfl | hne
      · exact A u (Or.inl hpc)
      · simp only [Function.update_noteq hne] at hu
        exact A u hu
    · intro u hu
      rcases eq_or_ne u t with rfl | hne
      · simp only [Function.update_same] at hu
        simp at hu
      · simp only [Function.update_noteq hne] at hu
        exact B u hu
    · intro u hu
      rcases eq_or_ne u t with rfl | hne
      · exact hslot
      · simp only [Function.update_noteq hne] at hu
        exact F u hu
    · intro u hu
      rcases eq_or_ne u t with rfl | hne
      · simp only [Function.update_same] at hu
        simp at hu
      · simp only [Function.update_noteq hne] at hu
        exact G u hu
  | check2Miss t hpc hslot =>
    refine ⟨?_, ?_, C, D, E, ?_, ?_⟩
    · intro u hu
      rcases eq_or_ne u t with rfl | hne
      · exact A u (Or.inl hpc)
      · simp only [Function.update_noteq hne] at hu
        exact A u hu
    · intro u hu
      rcases eq_or_ne u t with rfl | hne
      · exact hslot
      · simp only [Function.update_noteq hne] at hu
        exact B u hu
    · intro u hu
      rcases eq_or_ne u t with rfl | hne
      · simp only [Function.update_same] at hu
        rcases hu with h | h | h <;> simp at h
      · simp only [Function.update_noteq hne] at hu
        exact F u hu
    · intro u hu
      rcases eq_or_ne u t with rfl | hne
      · simp only [Function.update_same] at hu
        simp at hu
      · simp only [Function.update_noteq hne] at hu
        exact G u hu
  | initStore t hpc =>
    have hslot0 : s.slot = none := B t hpc
    have hcount0 : s.initCount = 0 := C.mp hslot0
    refine ⟨?_, ?_, ?_, ?_, ?_, ?_, ?_⟩
    · intro u hu
      rcases eq_or_ne u t with rfl | hne
      · exact A u (Or.inr (Or.inl hpc))
      · simp only [Function.update_noteq hne] at hu
        exact A u hu
    · intro u hu
      rcases eq_or_ne u t with rfl | hne
      · simp only [Function.update_same] at hu
        simp at hu
      · simp only [Function.update_noteq hne] at hu
        have h1 := A u (Or.inr (Or.inl hu))
        have h2 := A t (Or.inr (Or.inl hpc))
        rw [h1] at h2
        exact absurd (Option.some.inj h2) hne
    · simp
    · intro c hc
      rw [hcount0] at hc
      exact (Option.some.inj hc).symm
    · show s.initCount + 1 <= 1
      omega
    · intro u hu
      simp
    · intro u hu
      rcases eq_or_ne u t with rfl | hne
      · simp only [Function.update_same] at hu
        simp at hu
      · simp only [Function.update_noteq hne] at hu
        exact G u hu
  | releaseLock t hpc hlock =>
    refine ⟨?_, ?_, C, D, E, ?_, ?_⟩
    · intro u hu
      rcases eq_or_ne u t with rfl | hne
      · simp only [Function.update_same] at hu
        rcases hu with h | h | h <;> simp at h
      · simp only [Function.update_noteq hne] at hu
        have h1 := A u hu
        rw [hlock] at h1
        exact absurd (Option.some.inj h1).symm hne
    · intro u hu
      rcases eq_or_ne u t with rfl | hne
      · simp only [Function.update_same] at hu
        simp at hu
      · simp only [Function.update_noteq hne] at hu
        exact B u hu
    · intro u hu
      rcases eq_or_ne u t with rfl | hne
      · exact F u (Or.inl hpc)
      · simp only [Function.update_noteq hne] at hu
        exact F u hu
    · intro u hu
      rcases eq_or_ne u t with rfl | hne
      · simp only [Function.update_same] at hu
        simp at hu
      · simp only [Function.update_noteq hne] at hu
        exact G u hu
  | readReturn t c hpc hslot =>
    refine ⟨?_, ?_, C, D, E, ?_, ?_⟩
    · intro u hu
      rcases eq_or_ne u t with rfl | hne
      · simp only [Function.update_same] at hu
        rcases hu with h | h | h <;> simp at h
      · simp only [Function.update_noteq hne] at hu
        exact A u hu
    · intro u hu
      rcases eq_or_ne u t with rfl | hne
      · simp only [Function.update_same] at hu
        simp at hu
      · simp only [Function.update_noteq hne] at hu
        exact B u hu
    · intro u hu
      rcases eq_or_ne u t with rfl | hne
      · simp [hslot]
      · simp only [Function.update_noteq hne] at hu
        exact F u hu
    · intro u hu
      rcases eq_or_ne u t with rfl | hne
      · simp only [Function.update_same]
        rw [D c hslot]
      · simp only [Function.update_noteq hne] at hu
        simp only [Function.update_noteq hne]
        exact G u hu

theorem SInv_reach {n : Nat} {s : SingletonSys n} (h : SReach s) : SInv s := by
  induction h with
  | refl => exact SInv_origin n
  | tail _ hbc ih => exact SInv_step ih hbc

/-- C8: in every reachable state of the `n`-caller interleaving of
`get_instance`, at most one construct-and-initialize has run; once any caller
has finished, exactly one has run and every finished caller returned the one
stored instance; and a caller whose unlocked first check sees a populated
slot steps straight to the final read, never touching the lock. -/
theorem c8_init_exactly_once {n : Nat} {s : SingletonSys n} (h : SReach s) :
    s.initCount ≤ 1 ∧
    (∀ t, s.pc t = .done → s.initCount = 1 ∧ s.ret t = some 0) ∧
    (∀ t, s.pc t = .start → s.slot.isSome →
      SStep s { s with pc := Function.update s.pc t .readSlot }) := by
  have inv := SInv_reach h
  refine ⟨inv.countLe, ?_, ?_⟩
  · intro t ht
    refine ⟨?_, inv.retVal t ht⟩
    have hsome := inv.slotSomeLate t (Or.inr (Or.inr ht))
    rcases hs : s.slot with _ | c
    · rw [hs] at hsome
      simp at hsome
    · have h0 : s.initCount ≠ 0 := fun hz => by
        rw [inv.slotIffCount.mpr hz] at hs
        exact Option.noConfusion hs
      have := inv.countLe
      omega
  · intro t hpc hslot
    exact SStep.check1Hit s t hpc hslot

theorem c8_witness : cw6.initCount = 1 ∧ cw6.ret 0 = some 0 := by
  have s1 : SStep (SingletonSys.origin 1) cw1 := by
    simpa [cw1, SingletonSys.origin, updFin1] using
      SStep.check1Miss (SingletonSys.origin 1) 0 rfl rfl
  have s2 : SStep cw1 cw2 := by
    simpa [cw1, cw2, updFin1] using SStep.acquireLock cw1 0 rfl rfl
  have s3 : SStep cw2 cw3 := by
    simpa [cw2, cw3, updFin1] using SStep.check2Miss cw2 0 rfl rfl
  have s4 : SStep cw3 cw4 := by
    simpa [cw3, cw4, updFin1] using SStep.initStore cw3 0 rfl
  have s5 : SStep cw4 cw5 := by
    simpa [cw4, cw5, updFin1] using SStep.releaseLock cw4 0 rfl rfl
  have s6 : SStep cw5 cw6 := by
    simpa [cw5, cw6, updFin1] using SStep.readReturn cw5 0 0 rfl rfl
  have hreach : SReach cw6 :=
    (((((Relation.ReflTransGen.refl.tail s1).tail s2).tail s3).tail s4).tail s5).tail s6
  exact (c8_init_exactly_once hreach).2.1 0 rfl
